import Mathlib

/-!
Shallow embedding of the trade-republic-tracker core, for checking the
natural-language specification against the code.

The embedded units are:
* `TimelineManager.classify` and `TimelineManager._normalize`
  (src/tracker/timeline.py),
* `TradeRepublicClient.fetch_timeline_transactions`, `_ws_subscribe`,
  `_ws_unsubscribe` and `_save_tokens` (src/tracker/client.py),
* the subscription-id counter of `WebSocketClient.subscribe`
  (api/websocket_client.py).

Python strings are embedded as Lean `String`, numbers as `Rat`, absent
dictionary keys as `none`.  Python defines `d.get(k)` to yield the stored
value even when it is falsy, and `x or d` to yield `d` exactly when `x`
is falsy; both are mirrored explicitly below.
-/

namespace Tracker

/-- Python `str.strip()`: drop leading and trailing whitespace. -/
def pyStrip (s : String) : String :=
  String.mk (((s.toList.dropWhile Char.isWhitespace).reverse.dropWhile
    Char.isWhitespace).reverse)

/-- Python `str.lower()`: character-wise lowercasing. -/
def pyLower (s : String) : String :=
  String.mk (s.toList.map Char.toLower)

/-- Character-list equality test on a common length run. -/
def charsLeadWith : List Char → List Char → Bool
  | [], _ => true
  | _ :: _, [] => false
  | a :: as, b :: bs => a = b && charsLeadWith as bs

/-- Does `needle` occur as a contiguous run inside `hay`? -/
def charsContain (needle : List Char) : List Char → Bool
  | [] => needle.isEmpty
  | c :: rest => charsLeadWith needle (c :: rest) || charsContain needle rest

/-- Python `needle in hay` on strings: substring containment. -/
def strContains (hay needle : String) : Bool :=
  charsContain needle.toList hay.toList

/-- The `amount` sub-object of a raw timeline item: `{value, currency}`,
both optional on the wire. -/
structure AmountData where
  value : Option Rat
  currency : Option String
deriving DecidableEq, Repr

/-- A raw timeline item with the recognized fields of the data model
(spec section 3).  Every field is optional on the wire; `none` embeds an
absent key. -/
structure RawItem where
  id : Option String := none
  timestamp : Option String := none
  eventType : Option String := none
  icon : Option String := none
  subtitle : Option String := none
  title : Option String := none
  cashAccountNumber : Option String := none
  amount : Option AmountData := none
  status : Option String := none
deriving DecidableEq, Repr

/-- Python truthiness of the optional `cashAccountNumber` string:
`None` and the empty string are falsy. -/
def optStrTruthy : Option String → Bool
  | none => false
  | some s => s ≠ ""

/-- `event_type = txn.get("eventType") or ""` in `classify`: for an
optional string this collapses both an absent key and an empty value
to `""`. -/
def getStrOrEmpty : Option String → String
  | none => ""
  | some s => s

/-- `amount_val = (txn.get("amount") or {}).get("value", 0)`:
the value of the amount sub-object, `0` when the amount or its value is
absent. -/
def amountVal (txn : RawItem) : Rat :=
  ((txn.amount.getD ⟨none, none⟩).value).getD 0

/-- `CARD_EVENTS` of classify rule 1 (timeline.py line 45). -/
def CARD_EVENTS : List String :=
  ["card_successful_transaction", "card_failed_transaction", "card_refund",
   "card_successful_verification"]

/-- `TRANSFER_IN_EVENTS` of classify rule 2 (timeline.py line 48). -/
def TRANSFER_IN_EVENTS : List String :=
  ["PAYMENT_INBOUND", "PAYMENT_INBOUND_SEPA_DIRECT_DEBIT",
   "INCOMING_TRANSFER", "INCOMING_TRANSFER_DELEGATION", "CREDIT"]

/-- `TRANSFER_OUT_EVENTS` of classify rule 3 (timeline.py line 51). -/
def TRANSFER_OUT_EVENTS : List String :=
  ["PAYMENT_OUTBOUND", "OUTGOING_TRANSFER_DELEGATION"]

/-- `INVESTMENT_EVENTS` of classify rule 4 (timeline.py lines 54-67). -/
def INVESTMENT_EVENTS : List String :=
  ["ORDER_EXECUTED", "SAVINGS_PLAN_EXECUTED", "SAVINGS_PLAN_INVOICE_CREATED",
   "INTEREST_PAYOUT", "INTEREST_PAYOUT_CREATED", "DIVIDEND_PAYOUT",
   "trading_savingsplan_executed", "ssp_corporate_action_invoice_cash",
   "TRADE_INVOICE", "benefits_saveback_execution",
   "benefits_spare_change_execution", "timeline_legacy_migrated_events"]

/-- `INVESTMENT_SUBTITLES` (timeline.py lines 11-15). -/
def INVESTMENT_SUBTITLES : List String :=
  ["buy order", "sell order", "saving executed", "saveback",
   "round up", "pea", "dividend", "interest", "deposit",
   "withdrawal", "transfer", "tax", "fee"]

/-- The normalized subtitle used by `classify`:
`(txn.get("subtitle") or "").strip().lower()`. -/
def normSubtitle (txn : RawItem) : String :=
  pyLower (pyStrip (getStrOrEmpty txn.subtitle))

/-- The normalized title used by `classify`:
`(txn.get("title") or "").strip().lower()`. -/
def normTitle (txn : RawItem) : String :=
  pyLower (pyStrip (getStrOrEmpty txn.title))

/-- `TimelineManager.classify` (timeline.py lines 29-101), the layered
first-match-wins decision procedure. -/
def classify (txn : RawItem) : String :=
  let event_type := getStrOrEmpty txn.eventType
  let icon := getStrOrEmpty txn.icon
  let subtitle := normSubtitle txn
  let title := normTitle txn
  let cash_account := txn.cashAccountNumber
  let amount_val := amountVal txn
  if CARD_EVENTS.contains event_type then "card"
  else if TRANSFER_IN_EVENTS.contains event_type then "transfer_in"
  else if TRANSFER_OUT_EVENTS.contains event_type then "transfer_out"
  else if INVESTMENT_EVENTS.contains event_type then "investment"
  else if strContains icon "merchant-" then "card"
  else if strContains title "transfer" || strContains subtitle "transfer" then
    if 0 < amount_val then "transfer_in" else "transfer_out"
  else if strContains title "deposit" || strContains subtitle "deposit" then
    "transfer_in"
  else if strContains title "withdrawal" || strContains subtitle "withdrawal" then
    "transfer_out"
  else if subtitle ≠ "" && INVESTMENT_SUBTITLES.any (fun s => strContains subtitle s) then
    "investment"
  else if optStrTruthy cash_account then "investment"
  else if subtitle = "" && cash_account = none && amount_val < 0 then "card"
  else "other"

/-- The five categories `classify` may return. -/
def CATEGORIES : List String :=
  ["card", "investment", "transfer_in", "transfer_out", "other"]

example : classify { eventType := some "card_refund" } = "card" := by decide

example : classify { icon := some "merchant-netflix" } = "card" := by decide

example : classify {} = "other" := by decide

example :
    classify { subtitle := some " Bank Transfer ",
               amount := some ⟨some 1000, some "EUR"⟩ } = "transfer_in" := by
  decide

/-- An element of `l₂` is not an element of `l₁` whenever the two
(concrete, decidable) lists are disjoint. -/
theorem disjoint_not_mem {l₁ l₂ : List String} {a : String}
    (h : a ∈ l₂) (hd : ∀ x ∈ l₂, x ∉ l₁) : a ∉ l₁ :=
  hd _ h

/-- C2: an item whose `eventType` lies in one of the four enumerated
event-type sets is classified by that set alone — `card`, `transfer_in`,
`transfer_out` or `investment` respectively — for every value of the
remaining fields, because the `eventType` rules run first in `classify`. -/
theorem classify_eventType_first (txn : RawItem) :
    (CARD_EVENTS.contains (getStrOrEmpty txn.eventType) = true →
      classify txn = "card") ∧
    (TRANSFER_IN_EVENTS.contains (getStrOrEmpty txn.eventType) = true →
      classify txn = "transfer_in") ∧
    (TRANSFER_OUT_EVENTS.contains (getStrOrEmpty txn.eventType) = true →
      classify txn = "transfer_out") ∧
    (INVESTMENT_EVENTS.contains (getStrOrEmpty txn.eventType) = true →
      classify txn = "investment") := by
  refine ⟨fun h => ?_, fun h => ?_, fun h => ?_, fun h => ?_⟩
  · have hm : getStrOrEmpty txn.eventType ∈ CARD_EVENTS := by simpa using h
    simp [classify, hm]
  · have hm : getStrOrEmpty txn.eventType ∈ TRANSFER_IN_EVENTS := by simpa using h
    have h1 := disjoint_not_mem hm
      (by decide : ∀ x ∈ TRANSFER_IN_EVENTS, x ∉ CARD_EVENTS)
    simp [classify, hm, h1]
  · have hm : getStrOrEmpty txn.eventType ∈ TRANSFER_OUT_EVENTS := by simpa using h
    have h1 := disjoint_not_mem hm
      (by decide : ∀ x ∈ TRANSFER_OUT_EVENTS, x ∉ CARD_EVENTS)
    have h2 := disjoint_not_mem hm
      (by decide : ∀ x ∈ TRANSFER_OUT_EVENTS, x ∉ TRANSFER_IN_EVENTS)
    simp [classify, hm, h1, h2]
  · have hm : getStrOrEmpty txn.eventType ∈ INVESTMENT_EVENTS := by simpa using h
    have h1 := disjoint_not_mem hm
      (by decide : ∀ x ∈ INVESTMENT_EVENTS, x ∉ CARD_EVENTS)
    have h2 := disjoint_not_mem hm
      (by decide : ∀ x ∈ INVESTMENT_EVENTS, x ∉ TRANSFER_IN_EVENTS)
    have h3 := disjoint_not_mem hm
      (by decide : ∀ x ∈ INVESTMENT_EVENTS, x ∉ TRANSFER_OUT_EVENTS)
    simp [classify, hm, h1, h2, h3]

/-- Witness for C2: a `PAYMENT_INBOUND` item with a card-looking icon and a
negative amount is still classified `transfer_in`. -/
theorem classify_eventType_first_witness :
    TRANSFER_IN_EVENTS.contains
      (getStrOrEmpty (RawItem.eventType
        { eventType := some "PAYMENT_INBOUND", icon := some "merchant-aldi",
          amount := some ⟨some (-7), some "EUR"⟩ })) = true ∧
    classify
      { eventType := some "PAYMENT_INBOUND", icon := some "merchant-aldi",
        amount := some ⟨some (-7), some "EUR"⟩ } = "transfer_in" :=
  ⟨by decide,
   (classify_eventType_first
     { eventType := some "PAYMENT_INBOUND", icon := some "merchant-aldi",
       amount := some ⟨some (-7), some "EUR"⟩ }).2.1 (by decide)⟩

/-- Both branches of a conditional lie in `L` when both branch values do. -/
theorem mem_ite_of_mem {α : Type} {c : Prop} [Decidable c] {a b : α}
    {L : List α} (ha : a ∈ L) (hb : b ∈ L) : (if c then a else b) ∈ L := by
  by_cases h : c
  · simpa [h] using ha
  · simpa [h] using hb

/-- C9: `classify` is total on raw items with any subset of the recognized
fields present — it always returns one of the five categories — and the
item with every field absent is classified `other`. -/
theorem classify_total :
    (∀ txn : RawItem, classify txn ∈ CATEGORIES) ∧
    classify {} = "other" := by
  constructor
  · intro txn
    simp only [classify]
    repeat' apply mem_ite_of_mem
    all_goals decide
  · decide

/-- C7: when no `eventType` rule fires and the icon does not contain
`"merchant-"`, an item whose normalized title or subtitle contains
`"transfer"` is classified by the sign of the amount — `transfer_in` for a
positive amount, `transfer_out` otherwise — before the
`INVESTMENT_SUBTITLES` rule is ever consulted; an absent amount counts as
`0` and yields `transfer_out`. -/
theorem classify_transfer_keyword (txn : RawItem)
    (h1 : CARD_EVENTS.contains (getStrOrEmpty txn.eventType) = false)
    (h2 : TRANSFER_IN_EVENTS.contains (getStrOrEmpty txn.eventType) = false)
    (h3 : TRANSFER_OUT_EVENTS.contains (getStrOrEmpty txn.eventType) = false)
    (h4 : INVESTMENT_EVENTS.contains (getStrOrEmpty txn.eventType) = false)
    (h5 : strContains (getStrOrEmpty txn.icon) "merchant-" = false)
    (h6 : strContains (normTitle txn) "transfer" = true ∨
          strContains (normSubtitle txn) "transfer" = true) :
    (classify txn = if 0 < amountVal txn then "transfer_in" else "transfer_out") ∧
    (txn.amount = none → classify txn = "transfer_out") := by
  have hn1 : getStrOrEmpty txn.eventType ∉ CARD_EVENTS := by simpa using h1
  have hn2 : getStrOrEmpty txn.eventType ∉ TRANSFER_IN_EVENTS := by simpa using h2
  have hn3 : getStrOrEmpty txn.eventType ∉ TRANSFER_OUT_EVENTS := by simpa using h3
  have hn4 : getStrOrEmpty txn.eventType ∉ INVESTMENT_EVENTS := by simpa using h4
  have hmain :
      classify txn = if 0 < amountVal txn then "transfer_in" else "transfer_out" := by
    rcases h6 with h6|h6 <;> simp [classify, hn1, hn2, hn3, hn4, h5, h6]
  refine ⟨hmain, fun hnone => ?_⟩
  rw [hmain]
  simp [amountVal, hnone]

/-- Witness for C7: `"Bank Transfer"` in the title with the amount field
absent classifies as `transfer_out`, even though `"transfer"` is also an
investment subtitle. -/
theorem classify_transfer_keyword_witness :
    classify { title := some "Bank Transfer" } = "transfer_out" := by
  have h := classify_transfer_keyword { title := some "Bank Transfer" }
    (by decide) (by decide) (by decide) (by decide) (by decide)
    (Or.inl (by decide))
  exact h.2 rfl

/-! ## Python dicts and `TimelineManager._normalize`

`_normalize` works on the raw item as a Python dict (`t = txn.copy()`
followed by key assignments), so it is embedded over an explicit dict
representation: an association list of string keys and JSON-ish values. -/

/-- A JSON-ish value stored in a Python dict. -/
inductive JVal where
  | jnull : JVal
  | jstr : String → JVal
  | jnum : Rat → JVal
  | jobj : List (String × JVal) → JVal

/-- A Python dict with string keys.  Keys are unique in a real dict; the
association list reads the first binding of a key. -/
abbrev Dict := List (String × JVal)

/-- `d.get(k)`: `some` of the stored value when the key is present (even a
falsy value), `none` when the key is absent. -/
def dictGet : Dict → String → Option JVal
  | [], _ => none
  | p :: rest, k => if p.1 = k then some p.2 else dictGet rest k

/-- `d[k] = v`: overwrite the binding of an existing key in place,
append a new key at the end. -/
def dictSet : Dict → String → JVal → Dict
  | [], k, v => [(k, v)]
  | p :: rest, k, v => if p.1 = k then (k, v) :: rest else p :: dictSet rest k v

/-- `d.get(k, default)`: the stored value when the key is present,
the default when it is absent. -/
def dictGetD (d : Dict) (k : String) (v : JVal) : JVal :=
  (dictGet d k).getD v

/-- Python truthiness of a JSON value. -/
def jTruthy : JVal → Bool
  | JVal.jnull => false
  | JVal.jstr s => s ≠ ""
  | JVal.jnum q => q ≠ 0
  | JVal.jobj l => !l.isEmpty

/-- The string content of a JSON value (`""` for non-strings, which are
outside the recognized wire shape of the `title` field). -/
def jAsStr : JVal → String
  | JVal.jstr s => s
  | _ => ""

/-- `TimelineManager._normalize` (timeline.py lines 117-143) as the
value-level effect on the copied dict `t = txn.copy()`.  `catM` embeds
`categorize_merchant` (categories.py), whose result depends on CSV rule
files and runtime rule state outside this program, so it is a parameter.
A present `amount` that is not an object, or a present `value` that is not
a number, is outside the recognized wire shape of the data model (spec
section 3) and is mapped to the same defaults as an absent key.

The source computes each stored value by reading the partially updated
copy `t`; the keys it reads (`amount`, `title`, `subtitle`, `eventType`,
`timestamp`) are never among the keys previously written
(`normalized_amount`, `merchant`, `currency`, `category`, `subtitle_raw`,
`event_type`, `spending_category`), so each read equals the same read of
`txn`, and `t["merchant"]` read by the spending-category line equals the
`merchant` value stored two lines above; the values are therefore
computed from `txn` up front, and the write sequence is kept verbatim. -/
def pyNormalize (catM : String → String) (txn : Dict) (category : String) : Dict :=
  let amount_data : Dict :=
    match dictGet txn "amount" with
    | some (JVal.jobj fs) => fs
    | _ => []
  let val : Rat :=
    match dictGet amount_data "value" with
    | some (JVal.jnum q) => q
    | _ => 0
  let currency : String :=
    match dictGet amount_data "currency" with
    | some (JVal.jstr c) => c
    | _ => "EUR"
  let merchant : JVal := dictGetD txn "title" (JVal.jstr "Unknown")
  let subtitle_raw : JVal :=
    if jTruthy (dictGetD txn "subtitle" JVal.jnull)
    then dictGetD txn "subtitle" JVal.jnull else JVal.jstr ""
  let event_type : JVal :=
    if jTruthy (dictGetD txn "eventType" JVal.jnull)
    then dictGetD txn "eventType" JVal.jnull else JVal.jstr ""
  let spending_category : JVal :=
    if category = "card" then JVal.jstr (catM (jAsStr merchant))
    else JVal.jstr ""
  let ts : JVal := dictGetD txn "timestamp" JVal.jnull
  let t := dictSet txn "normalized_amount" (JVal.jnum val)
  let t := dictSet t "merchant" merchant
  let t := dictSet t "currency" (JVal.jstr currency)
  let t := dictSet t "category" (JVal.jstr category)
  let t := dictSet t "subtitle_raw" subtitle_raw
  let t := dictSet t "event_type" event_type
  let t := dictSet t "spending_category" spending_category
  if jTruthy ts then dictSet t "timestamp_iso" ts else t

/-- Reading a key after a dict assignment: the assigned value at the
assigned key, the previous binding elsewhere. -/
theorem dictGet_set (d : Dict) (k k' : String) (v : JVal) :
    dictGet (dictSet d k v) k' = if k' = k then some v else dictGet d k' := by
  induction d with
  | nil =>
    by_cases h : k' = k
    · simp [dictSet, dictGet, h]
    · simp [dictSet, dictGet, h, Ne.symm h]
  | cons p rest ih =>
    by_cases hp : p.1 = k
    · by_cases h : k' = k
      · simp [dictSet, dictGet, hp, h]
      · simp [dictSet, dictGet, hp, h, Ne.symm h]
    · by_cases h : p.1 = k'
      · have hk : ¬ k' = k := fun hk => hp (h.trans hk)
        simp [dictSet, dictGet, hp, h, hk]
      · simp [dictSet, dictGet, hp, h, ih]

/-- C3 counterexample: a present but empty `title` is copied verbatim into
`merchant` — the claimed substitution of `"Unknown"` for an empty title
does not happen, because `t.get("title", "Unknown")` only substitutes for
an absent key. -/
theorem normalize_empty_title_counterexample :
    dictGet (pyNormalize (fun _ => "Other") [("title", JVal.jstr "")] "other")
        "merchant" = some (JVal.jstr "") ∧
    ("" : String) ≠ "Unknown" :=
  ⟨rfl, by decide⟩

/-- C3 (amended): normalization stores `amount.value` verbatim in
`normalized_amount`, stores `amount.currency` with `"EUR"` substituted when
absent, stores the `title` verbatim in `merchant` (even when it is the
empty string) with `"Unknown"` substituted only when the title key is
absent, and an item without an `amount` gets `normalized_amount = 0` and
`currency = "EUR"`. -/
theorem normalize_fields (catM : String → String) (txn : Dict) (category : String) :
    (∀ a v, dictGet txn "amount" = some (JVal.jobj a) →
      dictGet a "value" = some (JVal.jnum v) →
      dictGet (pyNormalize catM txn category) "normalized_amount" =
        some (JVal.jnum v)) ∧
    (∀ a c, dictGet txn "amount" = some (JVal.jobj a) →
      dictGet a "currency" = some (JVal.jstr c) →
      dictGet (pyNormalize catM txn category) "currency" = some (JVal.jstr c)) ∧
    (∀ a, dictGet txn "amount" = some (JVal.jobj a) →
      dictGet a "currency" = none →
      dictGet (pyNormalize catM txn category) "currency" =
        some (JVal.jstr "EUR")) ∧
    (dictGet txn "amount" = none →
      dictGet (pyNormalize catM txn category) "normalized_amount" =
          some (JVal.jnum 0) ∧
      dictGet (pyNormalize catM txn category) "currency" =
          some (JVal.jstr "EUR")) ∧
    (∀ s, dictGet txn "title" = some (JVal.jstr s) →
      dictGet (pyNormalize catM txn category) "merchant" = some (JVal.jstr s)) ∧
    (dictGet txn "title" = none →
      dictGet (pyNormalize catM txn category) "merchant" =
        some (JVal.jstr "Unknown")) := by
  refine ⟨fun a v ha hv => ?_, fun a c ha hc => ?_, fun a ha hc => ?_,
    fun ha => ⟨?_, ?_⟩, fun s ht => ?_, fun ht => ?_⟩ <;>
    (simp only [pyNormalize]; split) <;>
    simp_all [dictGet_set, dictGetD, dictGet]

/-- Witness for C3: an item with `title = "Starbucks"` and
`amount = {value: -11/2, currency: "EUR"}` normalizes to
`normalized_amount = -11/2` and `merchant = "Starbucks"`. -/
theorem normalize_fields_witness :
    dictGet
      [("title", JVal.jstr "Starbucks"),
       ("amount", JVal.jobj
         [("value", JVal.jnum (-11/2)), ("currency", JVal.jstr "EUR")])]
      "amount" = some (JVal.jobj
        [("value", JVal.jnum (-11/2)), ("currency", JVal.jstr "EUR")]) ∧
    dictGet
      [("value", JVal.jnum (-11/2)), ("currency", JVal.jstr "EUR")]
      "value" = some (JVal.jnum (-11/2)) ∧
    dictGet
      (pyNormalize (fun _ => "Other")
        [("title", JVal.jstr "Starbucks"),
         ("amount", JVal.jobj
           [("value", JVal.jnum (-11/2)), ("currency", JVal.jstr "EUR")])]
        "card")
      "normalized_amount" = some (JVal.jnum (-11/2)) :=
  ⟨rfl, rfl,
    (normalize_fields (fun _ => "Other")
      [("title", JVal.jstr "Starbucks"),
       ("amount", JVal.jobj
         [("value", JVal.jnum (-11/2)), ("currency", JVal.jstr "EUR")])]
      "card").1
      [("value", JVal.jnum (-11/2)), ("currency", JVal.jstr "EUR")]
      (-11/2) rfl rfl⟩

/-! ## Heap-level view of `_normalize` for the frame property

`_normalize` mutates a Python dict object; whether the input object is
left untouched is a statement about object identity, so it is embedded
over an explicit heap of dict objects addressed by allocation index. -/

/-- A heap of Python dict objects: `store` maps every reference below
`next` to its current contents. -/
structure Heap where
  next : Nat
  store : Nat → Dict

/-- Allocate a fresh dict object (`txn.copy()` allocates one), returning
its reference. -/
def Heap.alloc (h : Heap) (d : Dict) : Nat × Heap :=
  (h.next, ⟨h.next + 1, fun q => if q = h.next then d else h.store q⟩)

/-- Apply an in-place update to the object behind reference `r`. -/
def Heap.update (h : Heap) (r : Nat) (f : Dict → Dict) : Heap :=
  ⟨h.next, fun q => if q = r then f (h.store q) else h.store q⟩

/-- `TimelineManager._normalize` at the heap level: `t = txn.copy()`
allocates a fresh object holding a copy of the input dict, and every key
assignment of the method mutates only that copy; `pyNormalize` is the
combined value-level effect of those assignments.  Returns the reference
to the copy. -/
def normalizeRef (catM : String → String) (h : Heap) (r : Nat)
    (category : String) : Nat × Heap :=
  let p := h.alloc (h.store r)
  (p.1, p.2.update p.1 (fun d => pyNormalize catM d category))

/-- C10: `_normalize` never mutates its input: for every valid reference
`r`, the returned reference is a fresh object distinct from `r`, the dict
behind `r` — every top-level key and value of the input — is unchanged by
the call, and the returned object holds the input extended with the
normalized fields. -/
theorem normalize_no_mutation (catM : String → String) (h : Heap) (r : Nat)
    (category : String) (hr : r < h.next) :
    (normalizeRef catM h r category).1 ≠ r ∧
    ((normalizeRef catM h r category).2).store r = h.store r ∧
    ((normalizeRef catM h r category).2).store
        ((normalizeRef catM h r category).1) =
      pyNormalize catM (h.store r) category := by
  have hne : h.next ≠ r := Nat.ne_of_gt hr
  have hne' : r ≠ h.next := Ne.symm hne
  refine ⟨?_, ?_, ?_⟩ <;>
    simp [normalizeRef, Heap.alloc, Heap.update, hne, hne']

/-- Witness for C10: on a one-object heap holding `{"title": "X"}` at
reference 0, normalization returns a fresh reference and leaves the object
at reference 0 unchanged. -/
theorem normalize_no_mutation_witness :
    (0 : Nat) < Heap.next ⟨1, fun _ => [("title", JVal.jstr "X")]⟩ ∧
    ((normalizeRef (fun _ => "Other")
        ⟨1, fun _ => [("title", JVal.jstr "X")]⟩ 0 "card").1 ≠ 0 ∧
      ((normalizeRef (fun _ => "Other")
          ⟨1, fun _ => [("title", JVal.jstr "X")]⟩ 0 "card").2).store 0 =
        Heap.store ⟨1, fun _ => [("title", JVal.jstr "X")]⟩ 0 ∧
      ((normalizeRef (fun _ => "Other")
          ⟨1, fun _ => [("title", JVal.jstr "X")]⟩ 0 "card").2).store
          ((normalizeRef (fun _ => "Other")
            ⟨1, fun _ => [("title", JVal.jstr "X")]⟩ 0 "card").1) =
        pyNormalize (fun _ => "Other")
          (Heap.store ⟨1, fun _ => [("title", JVal.jstr "X")]⟩ 0) "card") :=
  ⟨by decide,
   normalize_no_mutation (fun _ => "Other")
     ⟨1, fun _ => [("title", JVal.jstr "X")]⟩ 0 "card" (by decide)⟩

/-! ## The WebSocket timeline fetch loop

`TradeRepublicClient.fetch_timeline_transactions` (client.py lines
234-329) drives a page loop: subscribe, read frames until a terminal one,
unsubscribe, accumulate items, follow the cursor.  The server side is
embedded as `frameSeq`: the list of frames received while page `k` is
awaited.  Payloads arrive parsed: an `A`/fallback reply carries
`some page` when `json.loads(parts[2])` yields truthy data, and `none`
when the payload part is missing or the parsed dict is falsy (both break
the read loop with `valid_data` unset, line 310). -/

/-- One parsed timeline page: `items` and `cursors.after`. -/
structure Page (α : Type) where
  items : List α
  after : Option String

/-- One inbound frame as seen by the read loop: `echo …` frames,
frames with fewer than two parts or a non-integer id (`malformed`),
and `<id> <kind> [payload]` replies. -/
inductive InFrame (α : Type) where
  | echo : InFrame α
  | malformed : InFrame α
  | reply (id : Nat) (kind : String) (payload : Option (Page α)) : InFrame α

/-- One outbound frame sent by the loop: `sub <id> {…,"after":…}` and
`unsub <id> {…}`. -/
inductive OutFrame where
  | subFrame (id : Nat) (after : Option String) : OutFrame
  | unsubFrame (id : Nat) : OutFrame
deriving DecidableEq, Repr

/-- Python truthiness of the `cursors.get("after")` result:
`None` and the empty string are falsy. -/
def cursorTruthy : Option String → Bool
  | none => false
  | some s => s ≠ ""

/-- The inner read loop (client.py lines 262-306): skip `echo`, malformed
frames, frames for other subscriptions, `C` and `D`; stop on `E` with no
data, on `A` with its payload, and on any unknown kind with its payload;
an exhausted frame list is the `asyncio.TimeoutError` path (line 265),
which also stops with no data. -/
def innerRecv {α : Type} (subId : Nat) : List (InFrame α) → Option (Page α)
  | [] => none
  | f :: rest =>
    match f with
    | InFrame.echo => innerRecv subId rest
    | InFrame.malformed => innerRecv subId rest
    | InFrame.reply i kind payload =>
      if i ≠ subId then innerRecv subId rest
      else if kind = "C" then innerRecv subId rest
      else if kind = "E" then none
      else if kind = "A" then payload
      else if kind = "D" then innerRecv subId rest
      else payload

/-- `max_loops = 50` (client.py line 245). -/
def MAX_LOOPS : Nat := 50

/-- The page loop of `fetch_timeline_transactions`: `fuel` is the number
of remaining iterations the `loops < max_loops` guard still allows,
`loops` the number of iterations performed, `sidc` the subscription-id
counter, `cursor_after` the current cursor.  Returns the accumulated
items, the outbound frames, and the final `loops` count. -/
def fetchGo {α : Type} (frameSeq : Nat → List (InFrame α)) (limit : Nat) :
    Nat → Nat → Nat → Option String → List α → List OutFrame →
    List α × List OutFrame × Nat
  | 0, loops, _, _, acc, out => (acc, out, loops)
  | fuel+1, loops, sidc, cursor_after, acc, out =>
    let subId := sidc + 1
    let out1 := out ++ [OutFrame.subFrame subId
      (if cursorTruthy cursor_after then cursor_after else none)]
    let valid_data := innerRecv subId (frameSeq loops)
    let out2 := out1 ++ [OutFrame.unsubFrame subId]
    match valid_data with
    | none => (acc, out2, loops + 1)
    | some pg =>
      let acc2 := acc ++ pg.items
      if !cursorTruthy pg.after || decide (limit ≤ acc2.length)
      then (acc2, out2, loops + 1)
      else fetchGo frameSeq limit fuel (loops + 1) subId pg.after acc2 out2

/-- A whole run of `fetch_timeline_transactions`, exposing the outbound
frame trace and the page count next to the accumulated items. -/
def fetch_timeline_run {α : Type} (frameSeq : Nat → List (InFrame α))
    (limit : Nat) : List α × List OutFrame × Nat :=
  fetchGo frameSeq limit MAX_LOOPS 0 0 none [] []

/-- `fetch_timeline_transactions` itself: the accumulated items sliced by
`[:limit]` (client.py line 329). -/
def fetch_timeline_transactions {α : Type} (frameSeq : Nat → List (InFrame α))
    (limit : Nat) : List α :=
  (fetch_timeline_run frameSeq limit).1.take limit

/-- C1: the code treats `limit = 0` not as unlimited but as empty — the
`len(all_transactions) >= limit` break fires after the first page and the
final `[:0]` slice discards everything — although the repository's own
CLI documents `--limit 0` as "0 = all" (cli.py lines 20-22) and
`TimelineManager.fetch_transactions` defaults to 0.  With `limit = 3` the
same two-page server yields all three items. -/
theorem fetch_limit_zero_empty :
    fetch_timeline_transactions
      (fun k =>
        if k = 0 then
          [InFrame.reply 1 "A" (some ⟨["a", "b"], some "c2"⟩)]
        else if k = 1 then
          [InFrame.reply 2 "A" (some ⟨["c"], none⟩)]
        else []) 0 = ([] : List String) ∧
    fetch_timeline_transactions
      (fun k =>
        if k = 0 then
          [InFrame.reply 1 "A" (some ⟨["a", "b"], some "c2"⟩)]
        else if k = 1 then
          [InFrame.reply 2 "A" (some ⟨["c"], none⟩)]
        else []) 3 = ["a", "b", "c"] := by
  constructor <;> rfl

/-- C6 counterexample: against a server that always returns one item and a
live cursor, a run with `limit = 1000` performs exactly 50 page fetches —
the bound is `max_loops = 50` (client.py line 245), not the claimed
`MAX_PAGES = 500` — and returns 50 items, where a 500-page bound would
have returned 500. -/
theorem fetch_fifty_pages_counterexample :
    (fetch_timeline_run
        (fun k => [InFrame.reply (k + 1) "A" (some ⟨[()], some "c"⟩)])
        1000).2.2 = 50 ∧
    (fetch_timeline_run
        (fun k => [InFrame.reply (k + 1) "A" (some ⟨[()], some "c"⟩)])
        1000).1.length = 50 ∧
    (50 : Nat) ≠ 500 := by
  refine ⟨rfl, rfl, by decide⟩

/-- C6 (amended): the pagination loop always terminates — for every server
behavior and every limit it performs at most `max_loops = 50` page
fetches; the loop guard simply stops iterating (no warning is logged). -/
theorem fetch_pages_bounded {α : Type} (frameSeq : Nat → List (InFrame α))
    (limit : Nat) :
    (fetch_timeline_run frameSeq limit).2.2 ≤ MAX_LOOPS := by
  have key : ∀ (fuel loops sidc : Nat) (cur : Option String) (acc : List α)
      (out : List OutFrame),
      (fetchGo frameSeq limit fuel loops sidc cur acc out).2.2 ≤ loops + fuel := by
    intro fuel
    induction fuel with
    | zero =>
      intro loops sidc cur acc out
      simp [fetchGo]
    | succ n ih =>
      intro loops sidc cur acc out
      simp only [fetchGo]
      cases h : innerRecv (sidc + 1) (frameSeq loops) with
      | none =>
        dsimp only
        omega
      | some pg =>
        dsimp only
        by_cases hc :
            (!cursorTruthy pg.after || decide (limit ≤ (acc ++ pg.items).length))
              = true
        · rw [if_pos hc]
          dsimp only
          omega
        · rw [if_neg hc]
          exact le_trans (ih (loops + 1) (sidc + 1) pg.after (acc ++ pg.items) _)
            (by omega)
  exact key MAX_LOOPS 0 0 none [] []

/-- Frames the inner read loop passes over without stopping: `echo`,
malformed frames, replies for other subscriptions, and `C` or `D` replies
for this one. -/
def skips {α : Type} (subId : Nat) : InFrame α → Bool
  | InFrame.echo => true
  | InFrame.malformed => true
  | InFrame.reply i kind _ => i != subId || (kind == "C" || kind == "D")

/-- The inner read loop ignores any run of skippable frames. -/
theorem innerRecv_skips_pre {α : Type} (subId : Nat)
    (pre l : List (InFrame α))
    (hpre : ∀ f ∈ pre, skips subId f = true) :
    innerRecv subId (pre ++ l) = innerRecv subId l := by
  induction pre with
  | nil => simp
  | cons f rest ih =>
    have hf := hpre f (by simp)
    have hrest : ∀ g ∈ rest, skips subId g = true := fun g hg =>
      hpre g (by simp [hg])
    cases f with
    | echo => simpa [innerRecv] using ih hrest
    | malformed => simpa [innerRecv] using ih hrest
    | reply i kind payload =>
      simp only [skips, Bool.or_eq_true, bne_iff_ne, ne_eq, beq_iff_eq] at hf
      rcases hf with hf | hf | hf
      · simpa [innerRecv, hf] using ih hrest
      · by_cases hi : i = subId
        · simpa [innerRecv, hi, hf] using ih hrest
        · simpa [innerRecv, hi] using ih hrest
      · by_cases hi : i = subId
        · simpa [innerRecv, hi, hf] using ih hrest
        · simpa [innerRecv, hi] using ih hrest

/-- C4 (amended): when the first non-skipped frame for a pending
subscription is an `E` reply, the awaiting fetch loop obtains no data for
that page (the error is terminal for the subscription and pagination
stops, returning only previously accumulated items) and the client DOES
emit an `unsub` frame for that subscription — `_ws_unsubscribe` runs
unconditionally after the read loop (client.py line 308). -/
theorem fetch_error_reply {α : Type} (frameSeq : Nat → List (InFrame α))
    (limit fuel loops sidc : Nat) (cur : Option String) (acc : List α)
    (out : List OutFrame) (pre rest : List (InFrame α))
    (p : Option (Page α))
    (hframes : frameSeq loops = pre ++ InFrame.reply (sidc + 1) "E" p :: rest)
    (hpre : ∀ f ∈ pre, skips (sidc + 1) f = true) :
    fetchGo frameSeq limit (fuel + 1) loops sidc cur acc out =
      (acc,
       out ++ [OutFrame.subFrame (sidc + 1)
                 (if cursorTruthy cur then cur else none),
               OutFrame.unsubFrame (sidc + 1)],
       loops + 1) := by
  have hdata : innerRecv (sidc + 1) (frameSeq loops) = none := by
    rw [hframes, innerRecv_skips_pre _ _ _ hpre]
    simp [innerRecv]
  simp only [fetchGo]
  rw [hdata]
  simp

/-- C4 counterexample: after an `E` reply for pending subscription 1, the
outbound trace does contain `unsub 1`, contradicting the claim that no
unsub frame is emitted for an errored subscription. -/
theorem fetch_error_emits_unsub_counterexample :
    ((fetch_timeline_run
        (fun _ => [InFrame.reply 1 "E" (none : Option (Page Nat))])
        100).2.1).contains (OutFrame.unsubFrame 1) = true := by
  rfl

/-- Witness for C4: a run whose first page receives `echo` and then
`1 E …` returns no items and emits exactly `sub 1`, `unsub 1`. -/
theorem fetch_error_reply_witness :
    (fun _ : Nat => [InFrame.echo, InFrame.reply 1 "E" (none : Option (Page Nat))]) 0 =
      [InFrame.echo] ++ InFrame.reply (0 + 1) "E" none :: [] ∧
    fetchGo
        (fun _ : Nat =>
          [InFrame.echo, InFrame.reply 1 "E" (none : Option (Page Nat))]) 100
        (49 + 1) 0 0 none [] [] =
      (([] : List Nat),
       [OutFrame.subFrame 1 (if cursorTruthy none then none else none),
        OutFrame.unsubFrame 1], 0 + 1) :=
  ⟨rfl,
   fetch_error_reply
     (fun _ : Nat =>
       [InFrame.echo, InFrame.reply 1 "E" (none : Option (Page Nat))]) 100 49 0 0
     none [] [] [InFrame.echo] [] none rfl
     (by intro f hf; simp at hf; simp [hf, skips])⟩

/-! ## Subscription-id allocation

`TradeRepublicClient._ws_subscribe` (client.py lines 201-220) and
`WebSocketClient.subscribe` (api/websocket_client.py lines 99-113) both
allocate ids with `self.sub_id_counter += 1; sub_id = self.sub_id_counter`
against a counter initialized to 0 for the connection. -/

/-- One subscribe call: increment the counter, hand out its new value.
Returns (new counter state, allocated id). -/
def subscribeStep (counter : Nat) : Nat × Nat := (counter + 1, counter + 1)

/-- The counter after `n` subscribe calls, starting from the initial 0. -/
def counterAfter : Nat → Nat
  | 0 => 0
  | n + 1 => (subscribeStep (counterAfter n)).1

/-- The id handed out by the `n`-th subscribe call (1-based). -/
def subIdOfCall (n : Nat) : Nat := (subscribeStep (counterAfter (n - 1))).2

/-- C8: within one connection the subscription ids are allocated
monotonically starting at 1 — the n-th subscribe call receives id n — and
no two distinct calls ever share an id. -/
theorem subscribe_ids_monotonic :
    (∀ n, 1 ≤ n → subIdOfCall n = n) ∧
    (∀ m n, 1 ≤ m → 1 ≤ n → m ≠ n → subIdOfCall m ≠ subIdOfCall n) := by
  have hc : ∀ n, counterAfter n = n := by
    intro n
    induction n with
    | zero => rfl
    | succ k ih => simp [counterAfter, subscribeStep, ih]
  have hid : ∀ n, 1 ≤ n → subIdOfCall n = n := by
    intro n hn
    simp only [subIdOfCall, subscribeStep, hc]
    omega
  exact ⟨hid, fun m n hm hn hne => by rw [hid m hm, hid n hn]; exact hne⟩

/-- Witness for C8: the third subscribe call receives id 3, and calls 2
and 3 receive different ids. -/
theorem subscribe_ids_monotonic_witness :
    1 ≤ 3 ∧ subIdOfCall 3 = 3 ∧ subIdOfCall 2 ≠ subIdOfCall 3 :=
  ⟨by decide, subscribe_ids_monotonic.1 3 (by decide),
   subscribe_ids_monotonic.2 2 3 (by decide) (by decide) (by decide)⟩

/-! ## Token persistence

`TradeRepublicClient._save_tokens` (client.py lines 147-156) and
`Auth.save_tokens` (tr_api/auth.py lines 67-75) both write the token file
with `open(path, "w")` followed by `json.dump`; opening with mode `"w"`
truncates the file immediately, and the serialized content is written
afterwards.  The file-system effect is embedded as a list of primitive
operations so that a crash can be modelled as executing a prefix. -/

/-- A file system: path to content, `none` for a missing file. -/
abbrev FileSys := String → Option String

/-- Primitive file operations. -/
inductive FileOp where
  | openTrunc (path : String) : FileOp
  | writeAll (path : String) (content : String) : FileOp
  | rename (src dst : String) : FileOp

/-- Effect of one file operation. -/
def applyOp (fs : FileSys) : FileOp → FileSys
  | FileOp.openTrunc p => fun q => if q = p then some "" else fs q
  | FileOp.writeAll p c => fun q => if q = p then some c else fs q
  | FileOp.rename s d => fun q =>
      if q = d then fs s else if q = s then none else fs q

/-- Run a sequence of file operations. -/
def runOps (fs : FileSys) (ops : List FileOp) : FileSys :=
  ops.foldl applyOp fs

/-- The fixed token-file path `.tokens.json` (client.py line 44/155). -/
def tokensPath : String := ".tokens.json"

/-- `_save_tokens`: truncate the token file in place, then write the
serialized pair.  There is no temporary file and no rename. -/
def save_tokens_ops (content : String) : List FileOp :=
  [FileOp.openTrunc tokensPath, FileOp.writeAll tokensPath content]

/-- C5 counterexample: a crash between the truncating open and the write
leaves the token file empty — neither the old content nor the new one —
so the save is not an atomic write-temp-then-rename replace. -/
theorem save_tokens_not_atomic_counterexample :
    runOps (fun p => if p = tokensPath then some "OLD" else none)
        ((save_tokens_ops "NEW").take 1) tokensPath = some "" ∧
    ("" : String) ≠ "OLD" ∧ ("" : String) ≠ "NEW" :=
  ⟨rfl, by decide, by decide⟩

/-- C5 (amended): saving the token pair is a direct in-place overwrite,
not a temp-file-and-rename: a crash before the open leaves the old file, a
crash between the truncating open and the write leaves an empty file
(which `load` would read as corrupt JSON), and a completed save leaves the
new content. -/
theorem save_tokens_crash_points (fs : FileSys) (c : String) :
    runOps fs ((save_tokens_ops c).take 0) tokensPath = fs tokensPath ∧
    runOps fs ((save_tokens_ops c).take 1) tokensPath = some "" ∧
    runOps fs (save_tokens_ops c) tokensPath = some c := by
  refine ⟨rfl, ?_, ?_⟩ <;> simp [runOps, save_tokens_ops, applyOp]

end Tracker
